import Mathlib

/-!
# Verification of the Health-Report-Analyzer extraction core

Shallow embedding of the extraction orchestration and OCR quality-decision
pipeline of the Health-Report-Analyzer repository:

* `server/services/geminiService.js` — `extractWithGemini` and its sanitizers;
* `server/services/extractionService.js` — `extractHealthData` (the
  orchestrator), `generateBasicInsights`;
* `server/services/ocrService.js` — `deskewImage`, `calculateQualityScore`,
  `extractTextFromImageBuffer`, `extractTextFromPDFBuffer`, `extractWithOCR`.

External collaborators (the Gemini API call + JSON parse, the Tesseract OCR
engine, the sharp image transforms, `pdf-parse`, and the regex parameter
parser `extractHealthParameters`) are modelled as oracle functions bundled in
an `Env`; each such call is `Except`-valued so that a thrown JS exception is
representable.  Wall-clock readings (`Date.now()` differences) are modelled
as oracle values carried by `Env`.  JS objects with optional keys are
modelled as structures with `Option` fields (`none` = key absent or
`undefined`); JS numbers are modelled as `ℚ`.
-/

set_option autoImplicit false

namespace HealthReport

/-- Opaque handle for an in-memory `Buffer` (the byte content is never
inspected by the core, only passed to oracles). -/
abbrev Buffer := Nat

/-- Output of one `Tesseract.recognize` call: `{ data: { text, confidence } }`. -/
structure OcrOut where
  text : String
  confidence : ℚ
  deriving Repr, DecidableEq

/-- The two Tesseract option bundles used by the source: the cheap
`PSM.AUTO_ONLY` settings (deskew probes and quick scan) and the strict
`PSM.AUTO`/`OEM.LSTM_ONLY`/char-whitelist settings of the heavy variants. -/
inductive OcrMode where
  | autoOnly
  | enhanced
  deriving Repr, DecidableEq

/-! ## Substring and regex-count helpers (transcribed from the source)

All character-level helpers are written by structural recursion on `List
Char` so that every definition evaluates by kernel reduction alone. -/

/-- Does `cs` start with `p`? -/
def hasPrefixChars : List Char → List Char → Bool
  | [], _ => true
  | _ :: _, [] => false
  | p :: ps, c :: cs => c = p && hasPrefixChars ps cs

/-- Does `pat` occur (contiguously) anywhere in `cs`? -/
def containsChars (cs pat : List Char) : Bool :=
  match cs with
  | [] => pat.isEmpty
  | _ :: rest => hasPrefixChars pat cs || containsChars rest pat

/-- JS `String.prototype.includes(t)`. -/
def includesSubstr (s t : String) : Bool :=
  containsChars s.data t.data

/-- JS `String.prototype.trim()`: strip whitespace from both ends. -/
def trimChars (cs : List Char) : List Char :=
  ((cs.dropWhile Char.isWhitespace).reverse.dropWhile Char.isWhitespace).reverse

/-- JS `String.prototype.trim()` on `String`. -/
def jsTrim (s : String) : String :=
  ⟨trimChars s.data⟩

/-- JS `String.prototype.toLowerCase()` (ASCII case mapping). -/
def jsToLower (s : String) : String :=
  ⟨s.data.map Char.toLower⟩

/-- Strip `p` from the front of `cs`, returning the rest, or `none` when
`cs` does not start with `p`. -/
def dropPrefixChars : List Char → List Char → Option (List Char)
  | [], cs => some cs
  | _ :: _, [] => none
  | p :: ps, c :: cs => if c = p then dropPrefixChars ps cs else none

/-- JS `\w` character class (ASCII word character). -/
def isWordChar (c : Char) : Bool := c.isAlphanum || c = '_'

/-- The unit alternatives of the unit-pattern regex, lowercased. -/
def unitNames : List String := ["mg/dl", "mmol/l", "g/dl", "%"]

/-- Match the regex `\d+\.?\d*\s*(mg\/dl|mmol\/l|g\/dl|%)` at the head of a
lowercased character list, returning the remainder after the match.  For this
pattern the greedy no-backtracking scan is exact, because no alternative of
the trailing unit starts with a digit, a dot, or whitespace. -/
def matchUnitAt (cs : List Char) : Option (List Char) :=
  let s1 := cs.span Char.isDigit
  if s1.1.isEmpty then none else
  let r2 := match s1.2 with
    | '.' :: t => t.dropWhile Char.isDigit
    | r => r
  let r3 := r2.dropWhile Char.isWhitespace
  unitNames.findSome? (fun u => dropPrefixChars u.toList r3)

/-- Match the regex `\w+\s*[:\-]\s*\d+` at the head of `cs`, returning the
remainder after the match (again greedy scanning is exact: `:`/`-` and digits
are not consumable by the preceding greedy pieces at a failure point). -/
def matchTableAt (cs : List Char) : Option (List Char) :=
  let s1 := cs.span isWordChar
  if s1.1.isEmpty then none else
  let r2 := s1.2.dropWhile Char.isWhitespace
  match r2 with
  | c :: t =>
    if c = ':' || c = '-' then
      let r3 := t.dropWhile Char.isWhitespace
      let s2 := r3.span Char.isDigit
      if s2.1.isEmpty then none else some s2.2
    else none
  | [] => none

/-- Count non-overlapping matches the way a JS global regex `match` does:
scan left to right, counting a match at the earliest position it fits and
resuming after its end.  `fuel` bounds recursion; every step consumes at
least one character, so `fuel = cs.length` suffices. -/
def countPatAux (matchAt : List Char → Option (List Char)) : Nat → List Char → Nat
  | 0, _ => 0
  | _ + 1, [] => 0
  | fuel + 1, c :: rest =>
    match matchAt (c :: rest) with
    | some remaining => 1 + countPatAux matchAt fuel remaining
    | none => countPatAux matchAt fuel rest

/-- Number of non-overlapping matches of `matchAt` in `cs`. -/
def countPat (matchAt : List Char → Option (List Char)) (cs : List Char) : Nat :=
  countPatAux matchAt cs.length cs

/-- `(text.match(/\d+\.?\d*\s*(mg\/dl|mmol\/l|g\/dl|%)/gi) || []).length`. -/
def countUnitPatterns (text : String) : Nat :=
  countPat matchUnitAt (jsToLower text).data

/-- `(text.match(/\w+\s*[:\-]\s*\d+/g) || []).length`. -/
def countTablePatterns (text : String) : Nat :=
  countPat matchTableAt text.toList

/-- The fixed medical vocabulary of `calculateQualityScore`. -/
def medicalTerms : List String :=
  ["glucose", "cholesterol", "hemoglobin", "triglyceride", "creatinine"]

/-- `medicalTerms.filter(term => text.toLowerCase().includes(term)).length`. -/
def medicalTermCount (text : String) : Nat :=
  (medicalTerms.filter (fun term => includesSubstr (jsToLower text) term)).length

/-! ## QualityScorer (`calculateQualityScore` in ocrService.js) -/

/-- The `metrics` object of a quality score. -/
structure ScoreMetrics where
  charCount : Nat
  medicalTermCount : Nat
  unitPatterns : Nat
  tablePatterns : Nat
  deriving Repr, DecidableEq

/-- The `score` breakdown object (`structure` is a Lean keyword, hence the
field name `structureScore` for the source's `structure` key). -/
structure ScoreBreakdown where
  content : ℚ
  structureScore : ℚ
  medicalContent : ℚ
  units : ℚ
  confidence : ℚ
  deriving Repr, DecidableEq

/-- Return value of `calculateQualityScore`. -/
structure QualityScore where
  total : ℚ
  breakdown : ScoreBreakdown
  metrics : ScoreMetrics
  deriving Repr, DecidableEq

/-- The arithmetic core of `calculateQualityScore`, over the four text
metrics and the engine confidence (the source computes the metrics from the
text and then forms exactly this weighted sum). -/
def qualityScoreCore (charCount mtc up tp : Nat) (confidence : ℚ) : QualityScore :=
  let content : ℚ := if 100 < charCount then 50 else (charCount : ℚ) * (3 / 10)
  let structureScore : ℚ := (tp : ℚ) * 8
  let medicalContent : ℚ := (mtc : ℚ) * 15
  let units : ℚ := (up : ℚ) * 12
  let conf : ℚ := confidence * (2 / 5)
  { total := content + structureScore + medicalContent + units + conf
    breakdown := ⟨content, structureScore, medicalContent, units, conf⟩
    metrics := ⟨charCount, mtc, up, tp⟩ }

/-- `calculateQualityScore(text, confidence)` from ocrService.js. -/
def calculateQualityScore (text : String) (confidence : ℚ) : QualityScore :=
  qualityScoreCore text.length (medicalTermCount text)
    (countUnitPatterns text) (countTablePatterns text) confidence

/-- The `{ total: 0 }` score object produced by the per-variant catch
(the breakdown/metrics are never read on that path). -/
def zeroQualityScore : QualityScore := ⟨0, ⟨0, 0, 0, 0, 0⟩, ⟨0, 0, 0, 0⟩⟩

/-! ## Data model -/

/-- A sanitized health parameter record (the shape produced by
`extractWithGemini`'s map and consumed by `generateBasicInsights`; the OCR
parameter parser is an external collaborator producing the same shape). -/
structure HealthParameter where
  name : String
  value : ℚ
  textValue : Option String
  unit : String
  normalRange : String
  status : String
  category : String
  parameterType : String
  deriving Repr, DecidableEq

/-- `patientInfo` as produced by the model (all keys may be absent). -/
structure PatientInfo where
  name : Option String := none
  age : Option String := none
  gender : Option String := none
  testDate : Option String := none
  hospital : Option String := none
  deriving Repr, DecidableEq

/-- One entry of `insights.outliers`. -/
structure InsightOutlier where
  parameter : String
  value : ℚ
  normalRange : String
  severity : String
  concern : String
  recommendation : Option String := none
  deriving Repr, DecidableEq

/-- Sanitized `aiInsights` (also the shape of `generateBasicInsights`;
fields the basic generator does not produce stay at their defaults). -/
structure Insights where
  summary : String
  outliers : List InsightOutlier
  recommendations : List String
  riskLevel : String
  positiveFindings : List String
  trendsToMonitor : List String := []
  deriving Repr, DecidableEq

/-- One raw element of `parsedData.parameters` as returned by the model
(every key may be absent/`null`; `value` is `some q` when `parseFloat` of the
raw value yields the number `q`, `none` when it is absent or NaN). -/
structure RawParameter where
  name : Option String := none
  value : Option ℚ := none
  unit : Option String := none
  normalRange : Option String := none
  status : Option String := none
  category : Option String := none
  parameterType : Option String := none
  textValue : Option String := none
  deriving Repr, DecidableEq

/-- One raw element of `insights.outliers`. -/
structure RawOutlier where
  parameter : Option String := none
  value : Option ℚ := none
  normalRange : Option String := none
  severity : Option String := none
  concern : Option String := none
  recommendation : Option String := none
  deriving Repr, DecidableEq

/-- The raw `insights` object from the model. -/
structure RawInsights where
  summary : Option String := none
  outliers : Option (List RawOutlier) := none
  recommendations : Option (List String) := none
  riskLevel : Option String := none
  positiveFindings : Option (List String) := none
  trendsToMonitor : Option (List String) := none
  deriving Repr, DecidableEq

/-- `parsedData`: the model's JSON response after markdown stripping,
`JSON.parse`, and the `parameters`-is-an-array validation (all of which are
part of the oracle; a malformed/unparseable response is the oracle's
`Except.error`). -/
structure GeminiParsed where
  patientInfo : Option PatientInfo := none
  parameters : List RawParameter := []
  insights : Option RawInsights := none
  extractedText : Option String := none
  confidence : Option ℚ := none
  deriving Repr, DecidableEq

/-- The `metadata` object of a successful method result.  `extractWithGemini`
sets `model`/`confidence`, `extractWithOCR` sets `textLength`; both set
`processingTime` and `parameterCount`. -/
structure Metadata where
  model : Option String := none
  processingTime : Nat
  confidence : Option ℚ := none
  parameterCount : Nat
  textLength : Option Nat := none
  deriving Repr, DecidableEq

/-- One element of `extractionLog.attempts`.  `processingTime = none` models
both an absent key (forced modes) and a present-but-`undefined` value (auto
mode when the method result carries no `metadata`). -/
structure ExtractionAttempt where
  method : String
  success : Bool
  processingTime : Option Nat := none
  deriving Repr, DecidableEq

/-- The `extractionLog` object built by `extractHealthData`. -/
structure ExtractionLog where
  attempts : List ExtractionAttempt
  finalMethod : Option String := none
  totalTime : Nat := 0
  error : Option String := none
  deriving Repr, DecidableEq

/-- The result object of `extractWithGemini` / `extractWithOCR` /
`extractHealthData`.  JS results are heterogeneous object literals; a field
is `none` exactly when the corresponding branch does not set the key. -/
structure ExtractionResult where
  success : Bool
  method : String
  extractedText : Option String := none
  patientInfo : Option PatientInfo := none
  healthParameters : Option (List HealthParameter) := none
  aiInsights : Option Insights := none
  isScannedDocument : Option Bool := none
  requiresManualEntry : Option Bool := none
  error : Option String := none
  metadata : Option Metadata := none
  processingTime : Option Nat := none
  extractionLog : Option ExtractionLog := none
  deriving Repr, DecidableEq

/-- The `options` argument of `extractHealthData` (defaults as destructured
by the source). -/
structure Options where
  forceMethod : Option String := none
  preferGemini : Bool := true
  includeInsights : Bool := true
  deriving Repr, DecidableEq

/-- Ambient configuration: whether `process.env.GEMINI_API_KEY` is set. -/
structure Config where
  hasGeminiKey : Bool
  deriving Repr, DecidableEq

/-- The external collaborators, as oracles.  Every call the source awaits is
`Except`-valued (a JS exception is `Except.error`); `geminiElapsed`,
`ocrElapsed` and `totalElapsed` are the `Date.now()` differences observed at
the corresponding measurement points. -/
structure Env where
  recognize : Buffer → OcrMode → Except String OcrOut
  rotate : Buffer → Nat → Except String Buffer
  quickPrep : Buffer → Except String Buffer
  methodProcess : String → Buffer → Except String Buffer
  pdfParse : Buffer → Except String String
  extractHealthParameters : String → Except String (List HealthParameter)
  geminiCall : Buffer → String → Except String GeminiParsed
  geminiElapsed : Nat
  ocrElapsed : Nat
  totalElapsed : Nat

/-! ## geminiService.js -/

/-- `sanitizeStatus` (note the source checks `includes('normal')` first, so
e.g. `"Abnormal"` maps to `"Normal"`; transcribed as written). -/
def sanitizeStatus (status : Option String) : String :=
  match status with
  | none => "Unknown"
  | some st =>
    let normalized := jsTrim (jsToLower st)
    if includesSubstr normalized "normal" || normalized == "within range" then "Normal"
    else if includesSubstr normalized "high" || includesSubstr normalized "elevated" then "High"
    else if includesSubstr normalized "low" || includesSubstr normalized "decreased" then "Low"
    else if includesSubstr normalized "abnormal" || includesSubstr normalized "diagnosed" then "Abnormal"
    else if includesSubstr normalized "present" then "Present"
    else if includesSubstr normalized "absent" || includesSubstr normalized "none" then "Absent"
    else "Unknown"

/-- `sanitizeSeverity`. -/
def sanitizeSeverity (severity : Option String) : String :=
  match severity with
  | none => "Unknown"
  | some sv =>
    let normalized := jsTrim (jsToLower sv)
    if normalized == "mild" || normalized == "low" then "Mild"
    else if normalized == "moderate" then "Moderate"
    else if normalized == "severe" || normalized == "high" || normalized == "critical" then "Severe"
    else "Unknown"

/-- `sanitizeRiskLevel`. -/
def sanitizeRiskLevel (riskLevel : Option String) : String :=
  match riskLevel with
  | none => "Unknown"
  | some rl =>
    let normalized := jsTrim (jsToLower rl)
    if normalized == "low" then "Low"
    else if normalized == "moderate" || normalized == "medium" then "Moderate"
    else if normalized == "high" || normalized == "severe" then "High"
    else "Unknown"

/-- The per-parameter map of `extractWithGemini` (lines 134–159).  For the
`textValue` fallback the source uses `p.textValue || String(p.value) || 'N/A'`;
`String(undefined)` is the nonempty string `"undefined"`, which we model for
an absent value. -/
def sanitizeParameter (p : RawParameter) : HealthParameter :=
  let pt := p.parameterType.getD "numeric"
  let textFallback : String :=
    match p.value with
    | some v => toString v
    | none => "undefined"
  if pt == "categorical" || pt == "text" || pt == "boolean" then
    { name := p.name.getD "Unknown"
      value := 0
      textValue := some (p.textValue.getD textFallback)
      unit := p.unit.getD ""
      normalRange := p.normalRange.getD "N/A"
      status := sanitizeStatus p.status
      category := p.category.getD "General"
      parameterType := pt }
  else
    { name := p.name.getD "Unknown"
      value := p.value.getD 0
      textValue := p.textValue
      unit := p.unit.getD ""
      normalRange := p.normalRange.getD "N/A"
      status := sanitizeStatus p.status
      category := p.category.getD "General"
      parameterType := pt }

/-- Sanitization of `parsedData.insights` (lines 162–178). -/
def buildAiInsights (raw : Option RawInsights) : Insights :=
  let insights := raw.getD {}
  { summary := insights.summary.getD ""
    outliers := (insights.outliers.getD []).map (fun o =>
      { parameter := o.parameter.getD ""
        value := o.value.getD 0
        normalRange := o.normalRange.getD ""
        severity := sanitizeSeverity o.severity
        concern := o.concern.getD ""
        recommendation := some (o.recommendation.getD "") })
    recommendations := insights.recommendations.getD []
    riskLevel := sanitizeRiskLevel insights.riskLevel
    positiveFindings := insights.positiveFindings.getD []
    trendsToMonitor := insights.trendsToMonitor.getD [] }

/-- The catch-block return of `extractWithGemini` (lines 200–206): the
structured error shape for fallback handling. -/
def geminiFailureResult (env : Env) (e : String) : ExtractionResult :=
  { success := false
    method := "gemini"
    error := some e
    processingTime := some env.geminiElapsed }

/-- The standardized success return of `extractWithGemini` (lines 181–194).
Note: it carries **no** `requiresManualEntry` and no `isScannedDocument`
key. -/
def geminiOkResult (env : Env) (parsedData : GeminiParsed) : ExtractionResult :=
  let healthParameters := parsedData.parameters.map sanitizeParameter
  { success := true
    method := "gemini"
    extractedText := some (parsedData.extractedText.getD "")
    patientInfo := some (parsedData.patientInfo.getD {})
    healthParameters := some healthParameters
    aiInsights := some (buildAiInsights parsedData.insights)
    metadata := some
      { model := some "gemini-2.5-flash"
        processingTime := env.geminiElapsed
        confidence := some (parsedData.confidence.getD (4 / 5))
        parameterCount := healthParameters.length } }

/-- `extractWithGemini(fileBuffer, mimeType)`.  The whole body is one
try/catch: the model call, markdown strip, JSON parse and structure
validation are the `geminiCall` oracle; on its success the standardized
result object is built, on any throw the structured error shape is
returned. -/
def extractWithGemini (env : Env) (fileBuffer : Buffer) (mimeType : String) :
    ExtractionResult :=
  match env.geminiCall fileBuffer mimeType with
  | .error e => geminiFailureResult env e
  | .ok parsedData => geminiOkResult env parsedData

/-! ## ocrService.js -/

/-- One iteration of `deskewImage`'s rotation loop: rotate the original
buffer by `angle`, OCR it, and keep `(angle, length)` when the recognized
text is strictly longer than the best so far. -/
def probeRotation (env : Env) (buffer : Buffer) (best : Nat × Nat) (angle : Nat) :
    Except String (Nat × Nat) :=
  match env.rotate buffer angle with
  | .error e => .error e
  | .ok rotatedBuffer =>
    match env.recognize rotatedBuffer .autoOnly with
    | .error e => .error e
    | .ok rotated =>
      .ok (if best.2 < rotated.text.length then (angle, rotated.text.length) else best)

/-- `deskewImage`'s `for (const angle of rotations)` loop over the remaining
angles, threading `(bestRotation, bestLength)`. -/
def probeAll (env : Env) (buffer : Buffer) :
    Nat × Nat → List Nat → Except String (Nat × Nat)
  | best, [] => .ok best
  | best, angle :: rest =>
    match probeRotation env buffer best angle with
    | .error e => .error e
    | .ok best' => probeAll env buffer best' rest

/-- The body of `deskewImage`'s try block: a first cheap OCR pass; if it
yields fewer than 50 characters, probe the 90°/180°/270° rotations keeping
the strictly longest text (seeded with the unrotated length `(0, len)`), and
rotate the buffer when a non-zero rotation won. -/
def deskewProbe (env : Env) (buffer : Buffer) : Except String Buffer :=
  match env.recognize buffer .autoOnly with
  | .error e => .error e
  | .ok first =>
    if first.text.length < 50 then
      match probeAll env buffer (0, first.text.length) [90, 180, 270] with
      | .error e => .error e
      | .ok best => if 0 < best.1 then env.rotate buffer best.1 else .ok buffer
    else .ok buffer

/-- `deskewImage(buffer)`: the probe wrapped in the source's catch, which
falls back to the unmodified buffer. -/
def deskewImage (env : Env) (buffer : Buffer) : Buffer :=
  match deskewProbe env buffer with
  | .ok b => b
  | .error _ => buffer

/-- The names of `PREPROCESSING_METHODS` (their `process` pipelines are
sharp filter chains, i.e. oracle behaviour of `Env.methodProcess`). -/
def PREPROCESSING_METHODS : List String :=
  ["High-Quality Medical", "Adaptive CLAHE"]

/-- One element of the heavy-ladder `results` array. -/
structure VariantResult where
  text : String
  score : QualityScore
  methodName : String
  deriving Repr, DecidableEq

/-- One heavy preprocessing variant: `method.process` then the strict
`Tesseract.recognize`, scored; the per-variant catch yields an empty text
with a `{ total: 0 }` score. -/
def runMethod (env : Env) (name : String) (buffer : Buffer) : VariantResult :=
  match env.methodProcess name buffer with
  | .error _ => { text := "", score := zeroQualityScore, methodName := name }
  | .ok processedBuffer =>
    match env.recognize processedBuffer .enhanced with
    | .error _ => { text := "", score := zeroQualityScore, methodName := name }
    | .ok o =>
      { text := o.text, score := calculateQualityScore o.text o.confidence, methodName := name }

/-- JS `Array.prototype.reduce` with no seed over the variant results:
`(best, current) => current.score.total > best.score.total ? current : best`
(the first element is the seed, so the earliest maximum wins ties). -/
def reduceBest (best : VariantResult) : List VariantResult → VariantResult
  | [] => best
  | current :: rest =>
    reduceBest (if best.score.total < current.score.total then current else best) rest

/-- The try-block body of `extractTextFromImageBuffer`: deskew, quick scan
with short-circuit acceptance, else the heavy two-variant ladder with
best-score selection and the 10-character floor. -/
def extractTextFromImageBufferE (env : Env) (buffer : Buffer) : Except String String :=
  let deskewedBuffer := deskewImage env buffer
  match env.quickPrep deskewedBuffer with
  | .error e => .error e
  | .ok quickBuffer =>
    match env.recognize quickBuffer .autoOnly with
    | .error e => .error e
    | .ok quick =>
      let quickScore := calculateQualityScore quick.text quick.confidence
      if 150 < quickScore.total ∧ 3 < quickScore.metrics.medicalTermCount then
        .ok quick.text
      else
        let results := (PREPROCESSING_METHODS.take 2).map
          (fun name => runMethod env name deskewedBuffer)
        match results with
        | [] => .ok " "
        | r :: rs =>
          let bestResult := reduceBest r rs
          .ok (if 10 < bestResult.text.length then bestResult.text else " ")

/-- `extractTextFromImageBuffer(buffer)`: the body wrapped in the source's
catch, which returns the `" "` sentinel.  (The `results` array of the source
is the nonempty two-variant list, so its seedless `reduce` never throws; the
`[] => " "` arm is unreachable.) -/
def extractTextFromImageBuffer (env : Env) (buffer : Buffer) : String :=
  match extractTextFromImageBufferE env buffer with
  | .ok text => text
  | .error _ => " "

/-- `extractTextFromPDFBuffer(buffer)`: parse the embedded text layer; a
trimmed length above 100 is returned directly, otherwise the image OCR
pipeline runs on the same buffer; a `pdf-parse` throw is caught and yields
the `" "` sentinel. -/
def extractTextFromPDFBuffer (env : Env) (buffer : Buffer) : String :=
  match env.pdfParse buffer with
  | .ok text =>
    if 100 < (jsTrim text).length then text
    else extractTextFromImageBuffer env buffer
  | .error _ => " "

/-- The mime-type routing of `extractWithOCR`: PDFs go through the
embedded-text extractor, everything else straight to the image pipeline. -/
def ocrRawText (env : Env) (fileBuffer : Buffer) (mimeType : String) : String :=
  if mimeType == "application/pdf" then extractTextFromPDFBuffer env fileBuffer
  else extractTextFromImageBuffer env fileBuffer

/-- `isScannedDocument = hasMinimalText || hasNoText`: the recognized text,
trimmed, is nonempty-but-under-50-characters or empty. -/
def ocrIsScanned (rawText : String) : Bool :=
  (decide (0 < (jsTrim rawText).length) && decide ((jsTrim rawText).length < 50)) ||
    decide ((jsTrim rawText).length = 0)

/-- `if (hasNoText) extractedText = ' '`: replace an all-whitespace text by
the single-space sentinel. -/
def ocrExtractedText (rawText : String) : String :=
  if (jsTrim rawText).length = 0 then " " else rawText

/-- The gated call of the external parameter parser:
`extractedText.length > 50 ? extractHealthParameters(extractedText) : []`
(the parser may throw). -/
def parsedParams (env : Env) (extractedText : String) :
    Except String (List HealthParameter) :=
  if 50 < extractedText.length then env.extractHealthParameters extractedText
  else .ok []

/-- The OCR result object built at the end of `extractWithOCR`'s try block. -/
def ocrOkResult (env : Env) (rawText : String)
    (healthParameters : List HealthParameter) : ExtractionResult :=
  { success := decide (0 < healthParameters.length) || ocrIsScanned rawText
    method := "ocr"
    extractedText := some (ocrExtractedText rawText)
    healthParameters := some healthParameters
    isScannedDocument := some (ocrIsScanned rawText)
    requiresManualEntry := some (decide (healthParameters.length = 0))
    metadata := some
      { processingTime := env.ocrElapsed
        textLength := some (ocrExtractedText rawText).length
        parameterCount := healthParameters.length } }

/-- The try-block body of `extractWithOCR`: route by mime type, classify
scanned-ness from the trimmed text, gate the (throwing) parameter parser on
a 50-character length, and build the OCR result object. -/
def extractWithOCRBody (env : Env) (fileBuffer : Buffer) (mimeType : String) :
    Except String ExtractionResult :=
  let rawText := ocrRawText env fileBuffer mimeType
  match parsedParams env (ocrExtractedText rawText) with
  | .error e => .error e
  | .ok healthParameters => .ok (ocrOkResult env rawText healthParameters)

/-- The catch-block return of `extractWithOCR` (the structured OCR failure
shape). -/
def ocrFailureResult (env : Env) (e : String) : ExtractionResult :=
  { success := false
    method := "ocr"
    error := some e
    processingTime := some env.ocrElapsed }

/-- `extractWithOCR(fileBuffer, mimeType)`: the body wrapped in the source's
catch, which returns the structured OCR failure shape. -/
def extractWithOCR (env : Env) (fileBuffer : Buffer) (mimeType : String) :
    ExtractionResult :=
  match extractWithOCRBody env fileBuffer mimeType with
  | .ok r => r
  | .error e => ocrFailureResult env e

/-! ## extractionService.js -/

/-- `generateBasicInsights(healthParameters)`. -/
def generateBasicInsights (healthParameters : List HealthParameter) : Insights :=
  let outliers := healthParameters.filter (fun p => p.status == "High" || p.status == "Low")
  let recommendations :=
    if 0 < outliers.length then
      ["Some parameters are outside normal range - consult your healthcare provider"]
    else if 0 < healthParameters.length then
      ["All measured parameters appear to be within normal ranges"]
    else []
  { summary :=
      if 0 < outliers.length then
        toString outliers.length ++ " parameter(s) outside normal range detected"
      else "All parameters within normal ranges"
    outliers := outliers.map (fun p =>
      { parameter := p.name
        value := p.value
        normalRange := p.normalRange
        severity := "Unknown"
        concern := p.name ++ " is " ++ jsToLower p.status })
    recommendations := recommendations
    riskLevel := if 2 < outliers.length then "Moderate" else "Low"
    positiveFindings := (healthParameters.filter (fun p => p.status == "Normal")).map
      (fun p => p.name ++ " is within normal range") }

/-- The catch block of `extractHealthData`: the structured
manual-entry-allowing failure result (the log passed in already carries the
accumulated attempts, the total time and the error message). -/
def failedResult (msg : String) (log : ExtractionLog) : ExtractionResult :=
  { success := false
    method := "failed"
    extractedText := some " "
    healthParameters := some []
    isScannedDocument := some true
    requiresManualEntry := some true
    error := some msg
    extractionLog := some log }

/-- The OCR leg of auto mode (`// Fallback to OCR` onwards): run OCR,
append its attempt, and either merge the successful result (adding the basic
insights when requested) or throw the combined-failure error. -/
def autoOcr (env : Env) (options : Options) (fileBuffer : Buffer) (mimeType : String)
    (attempts : List ExtractionAttempt) :
    Except (String × ExtractionLog) ExtractionResult :=
  let ocrResult := extractWithOCR env fileBuffer mimeType
  let attempts := attempts ++
    [{ method := "ocr", success := ocrResult.success,
       processingTime := ocrResult.metadata.map (·.processingTime) }]
  if ocrResult.success then
    .ok { ocrResult with
      aiInsights :=
        if options.includeInsights then
          some (generateBasicInsights (ocrResult.healthParameters.getD []))
        else none
      extractionLog := some
        { attempts := attempts, finalMethod := some "ocr", totalTime := env.totalElapsed } }
  else
    .error ("Both Gemini and OCR extraction failed", { attempts := attempts })

/-- The try block of `extractHealthData`: forced OCR, forced Gemini, or auto
mode (Gemini first when preferred and configured, with the ≥1-parameter
sufficiency test, then OCR).  A thrown error carries the log as mutated so
far, exactly as the source's closed-over `extractionLog`. -/
def extractHealthDataE (env : Env) (cfg : Config) (fileBuffer : Buffer)
    (mimeType : String) (options : Options) :
    Except (String × ExtractionLog) ExtractionResult :=
  match options.forceMethod with
  | some "ocr" =>
    let result := extractWithOCR env fileBuffer mimeType
    .ok { result with
      extractionLog := some
        { attempts := [{ method := "ocr", success := result.success }]
          finalMethod := some "ocr"
          totalTime := env.totalElapsed } }
  | some "gemini" =>
    let result := extractWithGemini env fileBuffer mimeType
    let attempts : List ExtractionAttempt :=
      [{ method := "gemini", success := result.success }]
    if result.success then
      .ok { result with
        extractionLog := some
          { attempts := attempts, finalMethod := some "gemini", totalTime := env.totalElapsed } }
    else
      .error ("Gemini extraction failed (forced mode)", { attempts := attempts })
  | _ =>
    if options.preferGemini && cfg.hasGeminiKey then
      let geminiResult := extractWithGemini env fileBuffer mimeType
      let attempts : List ExtractionAttempt :=
        [{ method := "gemini", success := geminiResult.success,
           processingTime := geminiResult.metadata.map (·.processingTime) }]
      if geminiResult.success ∧ 0 < (geminiResult.healthParameters.getD []).length then
        .ok { geminiResult with
          extractionLog := some
            { attempts := attempts, finalMethod := some "gemini", totalTime := env.totalElapsed } }
      else
        autoOcr env options fileBuffer mimeType attempts
    else
      autoOcr env options fileBuffer mimeType []

/-- `extractHealthData(fileBuffer, mimeType, options)`: the try block with
the catch that finalizes the log (total time, error message) and returns the
`method = "failed"` manual-entry result.  Total by construction: no
exception reaches the caller. -/
def extractHealthData (env : Env) (cfg : Config) (fileBuffer : Buffer)
    (mimeType : String) (options : Options) : ExtractionResult :=
  match extractHealthDataE env cfg fileBuffer mimeType options with
  | .ok r => r
  | .error (msg, log) =>
    failedResult msg { log with totalTime := env.totalElapsed, error := some msg }

/-! ## Concrete environments for witnesses

A family of small executable `Env`s used to instantiate the theorems below
on concrete inputs. -/

/-- Base witness environment: OCR recognizes nothing, PDF parsing throws,
the Gemini call throws, the parameter parser finds nothing. -/
def envBase : Env where
  recognize := fun _ _ => .ok ⟨"", 0⟩
  rotate := fun b a => .ok (b * 1000 + a)
  quickPrep := fun b => .ok (b + 1)
  methodProcess := fun _ b => .ok (b + 2)
  pdfParse := fun _ => .error "bad xref"
  extractHealthParameters := fun _ => .ok []
  geminiCall := fun _ _ => .error "fetch failed"
  geminiElapsed := 5
  ocrElapsed := 7
  totalElapsed := 11

/-- A sample parsed health parameter (as the external parser would return). -/
def glucoseParam : HealthParameter :=
  { name := "Glucose", value := 105, textValue := none, unit := "mg/dL"
    normalRange := "70-100", status := "High", category := "Blood", parameterType := "numeric" }

/-! ## Case-analysis lemmas on the two extraction methods -/

/-- `extractWithGemini` returns the catch shape exactly when the oracle
throws, and the standardized success shape otherwise. -/
theorem extractWithGemini_eq (env : Env) (b : Buffer) (m : String) :
    (∃ e, env.geminiCall b m = .error e ∧
      extractWithGemini env b m = geminiFailureResult env e) ∨
    (∃ parsed, env.geminiCall b m = .ok parsed ∧
      extractWithGemini env b m = geminiOkResult env parsed) := by
  unfold extractWithGemini
  cases h : env.geminiCall b m with
  | error e => exact Or.inl ⟨e, rfl, rfl⟩
  | ok parsed => exact Or.inr ⟨parsed, rfl, rfl⟩

/-- `extractWithOCR` returns the catch shape exactly when the gated parser
call throws, and the built OCR result otherwise. -/
theorem extractWithOCR_eq (env : Env) (fb : Buffer) (mt : String) :
    (∃ e, parsedParams env (ocrExtractedText (ocrRawText env fb mt)) = .error e ∧
      extractWithOCR env fb mt = ocrFailureResult env e) ∨
    (∃ ps, parsedParams env (ocrExtractedText (ocrRawText env fb mt)) = .ok ps ∧
      extractWithOCR env fb mt = ocrOkResult env (ocrRawText env fb mt) ps) := by
  cases h : parsedParams env (ocrExtractedText (ocrRawText env fb mt)) with
  | error e =>
    refine Or.inl ⟨e, rfl, ?_⟩
    simp only [extractWithOCR, extractWithOCRBody, h]
  | ok ps =>
    refine Or.inr ⟨ps, rfl, ?_⟩
    simp only [extractWithOCR, extractWithOCRBody, h]

/-- Unfolding of the OCR leg of auto mode. -/
theorem autoOcr_eq (env : Env) (opts : Options) (buf : Buffer) (mime : String)
    (attempts : List ExtractionAttempt) :
    autoOcr env opts buf mime attempts =
      (let o := extractWithOCR env buf mime
       let oa : ExtractionAttempt :=
         ⟨"ocr", o.success, o.metadata.map (·.processingTime)⟩
       if o.success then
        .ok { o with
          aiInsights :=
            if opts.includeInsights then
              some (generateBasicInsights (o.healthParameters.getD []))
            else none
          extractionLog := some ⟨attempts ++ [oa], some "ocr", env.totalElapsed, none⟩ }
       else .error ("Both Gemini and OCR extraction failed",
          ⟨attempts ++ [oa], none, 0, none⟩)) := rfl

/-- The forced-OCR branch of the orchestrator's try block. -/
theorem extractHealthDataE_forced_ocr (env : Env) (cfg : Config) (buf : Buffer)
    (mime : String) (opts : Options) (h : opts.forceMethod = some "ocr") :
    extractHealthDataE env cfg buf mime opts =
      .ok { extractWithOCR env buf mime with
        extractionLog := some
          ⟨[⟨"ocr", (extractWithOCR env buf mime).success, none⟩],
            some "ocr", env.totalElapsed, none⟩ } := by
  unfold extractHealthDataE
  rw [h]
  rfl

/-- The forced-Gemini branch of the orchestrator's try block. -/
theorem extractHealthDataE_forced_gemini (env : Env) (cfg : Config) (buf : Buffer)
    (mime : String) (opts : Options) (h : opts.forceMethod = some "gemini") :
    extractHealthDataE env cfg buf mime opts =
      (let g := extractWithGemini env buf mime
       if g.success then
        .ok { g with
          extractionLog := some
            ⟨[⟨"gemini", g.success, none⟩], some "gemini", env.totalElapsed, none⟩ }
       else .error ("Gemini extraction failed (forced mode)",
          ⟨[⟨"gemini", g.success, none⟩], none, 0, none⟩)) := by
  unfold extractHealthDataE
  rw [h]
  rfl

/-- The auto-mode branch of the orchestrator's try block (any `forceMethod`
other than the two recognized strings falls through to it). -/
theorem extractHealthDataE_auto (env : Env) (cfg : Config) (buf : Buffer)
    (mime : String) (opts : Options)
    (h1 : opts.forceMethod ≠ some "ocr") (h2 : opts.forceMethod ≠ some "gemini") :
    extractHealthDataE env cfg buf mime opts =
      (if opts.preferGemini && cfg.hasGeminiKey then
        let g := extractWithGemini env buf mime
        let ga : ExtractionAttempt :=
          ⟨"gemini", g.success, g.metadata.map (·.processingTime)⟩
        if g.success ∧ 0 < (g.healthParameters.getD []).length then
          .ok { g with
            extractionLog := some ⟨[ga], some "gemini", env.totalElapsed, none⟩ }
        else autoOcr env opts buf mime [ga]
      else autoOcr env opts buf mime []) := by
  unfold extractHealthDataE
  split
  · next heq => exact absurd heq h1
  · next heq => exact absurd heq h2
  · rfl

/-- The orchestrator's try/catch: the final result is the try block's value,
or the catch's failure shape with the finalized log. -/
theorem extractHealthData_eq (env : Env) (cfg : Config) (buf : Buffer)
    (mime : String) (opts : Options) :
    (∃ r, extractHealthDataE env cfg buf mime opts = .ok r ∧
      extractHealthData env cfg buf mime opts = r) ∨
    (∃ msg log, extractHealthDataE env cfg buf mime opts = .error (msg, log) ∧
      extractHealthData env cfg buf mime opts =
        failedResult msg { log with totalTime := env.totalElapsed, error := some msg }) := by
  unfold extractHealthData
  cases hE : extractHealthDataE env cfg buf mime opts with
  | ok r => exact Or.inl ⟨r, rfl, rfl⟩
  | error p =>
    obtain ⟨msg, log⟩ := p
    exact Or.inr ⟨msg, log, rfl, rfl⟩

/-- If the try block returns normally, its value is the final result. -/
theorem extractHealthData_of_ok (env : Env) (cfg : Config) (buf : Buffer)
    (mime : String) (opts : Options) (r : ExtractionResult)
    (h : extractHealthDataE env cfg buf mime opts = .ok r) :
    extractHealthData env cfg buf mime opts = r := by
  unfold extractHealthData
  rw [h]

/-- If the try block throws, the catch produces the failure shape. -/
theorem extractHealthData_of_error (env : Env) (cfg : Config) (buf : Buffer)
    (mime : String) (opts : Options) (msg : String) (lg : ExtractionLog)
    (h : extractHealthDataE env cfg buf mime opts = .error (msg, lg)) :
    extractHealthData env cfg buf mime opts =
      failedResult msg { lg with totalTime := env.totalElapsed, error := some msg } := by
  unfold extractHealthData
  rw [h]

/-- Both shapes of `extractWithGemini` carry `method = "gemini"`. -/
theorem extractWithGemini_method (env : Env) (b : Buffer) (m : String) :
    (extractWithGemini env b m).method = "gemini" := by
  rcases extractWithGemini_eq env b m with ⟨e, _, hg⟩ | ⟨parsed, _, hg⟩ <;> rw [hg] <;> rfl

/-- Both shapes of `extractWithOCR` carry `method = "ocr"`. -/
theorem extractWithOCR_method (env : Env) (fb : Buffer) (mt : String) :
    (extractWithOCR env fb mt).method = "ocr" := by
  rcases extractWithOCR_eq env fb mt with ⟨e, _, ho⟩ | ⟨ps, _, ho⟩ <;> rw [ho] <;> rfl

/-! ## Theorems -/

/-- **C9.** The quality-score total is monotonically non-decreasing in the
domain-keyword hit count `m` and in the numeric-unit pattern match count
`u`, holding the character count, the table-pattern count and the engine
confidence fixed; one more keyword hit adds exactly 15 points and one more
unit-pattern match exactly 12 points to the composite sum. -/
theorem qualityScore_monotone_keyword_unit
    (charCount tp : Nat) (confidence : ℚ) (m m' u u' : Nat)
    (hm : m ≤ m') (hu : u ≤ u') :
    (qualityScoreCore charCount m u tp confidence).total ≤
      (qualityScoreCore charCount m' u' tp confidence).total ∧
    (qualityScoreCore charCount (m + 1) u tp confidence).total =
      (qualityScoreCore charCount m u tp confidence).total + 15 ∧
    (qualityScoreCore charCount m (u + 1) tp confidence).total =
      (qualityScoreCore charCount m u tp confidence).total + 12 := by
  refine ⟨?_, ?_, ?_⟩ <;> simp only [qualityScoreCore]
  · have hm' : (m : ℚ) ≤ (m' : ℚ) := by exact_mod_cast hm
    have hu' : (u : ℚ) ≤ (u' : ℚ) := by exact_mod_cast hu
    have h15 : (m : ℚ) * 15 ≤ (m' : ℚ) * 15 := by linarith
    have h12 : (u : ℚ) * 12 ≤ (u' : ℚ) * 12 := by linarith
    linarith
  · push_cast
    ring
  · push_cast
    ring

/-- Witness for C9 at concrete metric values. -/
theorem qualityScore_monotone_keyword_unit_w :
    (qualityScoreCore 120 1 0 2 80).total ≤ (qualityScoreCore 120 3 2 2 80).total ∧
    (qualityScoreCore 120 2 0 2 80).total = (qualityScoreCore 120 1 0 2 80).total + 15 ∧
    (qualityScoreCore 120 1 1 2 80).total = (qualityScoreCore 120 1 0 2 80).total + 12 :=
  qualityScore_monotone_keyword_unit 120 2 80 1 3 0 2 (by norm_num) (by norm_num)

/-- Environment in which the Gemini call succeeds but extracts zero
parameters. -/
def envGeminiEmpty : Env :=
  { envBase with geminiCall := fun _ _ => .ok { parameters := [] } }

/-- **C2 (counterexample).** In forced-Gemini mode with a successful model
call that returns zero parameters, the final result has
`healthParameters = []` but does **not** carry `requiresManualEntry = true`
(the AI success shape omits the flag entirely), refuting the claimed
biconditional `requiresManualEntry ↔ healthParameters.length = 0`. -/
theorem requiresManualEntry_iff_cex :
    ¬ ((extractHealthData envGeminiEmpty ⟨false⟩ 0 "image/png"
          { forceMethod := some "gemini" }).requiresManualEntry = some true ↔
        ((extractHealthData envGeminiEmpty ⟨false⟩ 0 "image/png"
          { forceMethod := some "gemini" }).healthParameters.getD []).length = 0) := by
  decide

/-- If the try block of the orchestrator returns a result that carries the
`requiresManualEntry` flag, the flag equals "zero parameters". -/
theorem requiresManualEntry_flag_soundE (env : Env) (cfg : Config) (buf : Buffer)
    (mime : String) (opts : Options) (r : ExtractionResult)
    (hr : extractHealthDataE env cfg buf mime opts = .ok r) (b : Bool)
    (h : r.requiresManualEntry = some b) :
    (b = true ↔ (r.healthParameters.getD []).length = 0) := by
  rcases extractWithOCR_eq env buf mime with ⟨e, hpe, ho⟩ | ⟨ps, hps, ho⟩ <;>
    rcases extractWithGemini_eq env buf mime with ⟨ge, hge, hg⟩ | ⟨parsed, hgp, hg⟩ <;>
    unfold extractHealthDataE autoOcr at hr <;>
    rw [ho, hg] at hr <;>
    simp only [geminiFailureResult, geminiOkResult, ocrFailureResult, ocrOkResult] at hr <;>
    split at hr <;>
    (try split at hr) <;>
    (try simp at hr) <;>
    (try split at hr) <;>
    (try simp at hr) <;>
    (try split at hr) <;>
    (try simp at hr) <;>
    (try subst hr) <;>
    (try simp [failedResult] at h) <;>
    (try subst h) <;>
    simp_all [failedResult, ocrIsScanned, ocrOkResult]

/-- **C2 (amended).** Whenever a result returned by the orchestrator
carries the `requiresManualEntry` key, its value is true iff
`healthParameters` is empty.  (AI-success results and failed-OCR-attempt
results omit the key — downstream code coerces the absent key to false —
so a forced-AI success with zero parameters violates the unconditional
biconditional; see the counterexample.) -/
theorem requiresManualEntry_flag_sound (env : Env) (cfg : Config) (buf : Buffer)
    (mime : String) (opts : Options) (b : Bool)
    (h : (extractHealthData env cfg buf mime opts).requiresManualEntry = some b) :
    (b = true ↔ ((extractHealthData env cfg buf mime opts).healthParameters.getD []).length = 0) := by
  rcases extractHealthData_eq env cfg buf mime opts with ⟨r, hE, hr⟩ | ⟨msg, log, hE, hr⟩
  · rw [hr] at h ⊢
    exact requiresManualEntry_flag_soundE env cfg buf mime opts r hE b h
  · rw [hr] at h ⊢
    simp_all [failedResult]

/-- Witness for the amended C2: in auto mode with no API key and a PDF whose
parse throws (OCR yields the sentinel), the result carries
`requiresManualEntry = some true` and indeed has zero parameters. -/
theorem requiresManualEntry_flag_sound_w :
    (extractHealthData envBase ⟨false⟩ 0 "application/pdf" {}).requiresManualEntry = some true ∧
    (true = true ↔
      ((extractHealthData envBase ⟨false⟩ 0 "application/pdf" {}).healthParameters.getD []).length = 0) :=
  ⟨by decide, requiresManualEntry_flag_sound envBase ⟨false⟩ 0 "application/pdf" {} true (by decide)⟩

/-- Environment for the C7 counterexample: PDF parsing throws, while the
image OCR pipeline on the same buffer would recognize a legible text (the
heavy variants both return it; the cheap passes see nothing). -/
def envPdfThrows : Env :=
  { envBase with
    pdfParse := fun _ => .error "bad xref"
    recognize := fun _ mode =>
      match mode with
      | .autoOnly => .ok ⟨"", 0⟩
      | .enhanced => .ok ⟨"completely legible scanned report text", 0⟩ }

/-- **C7 (counterexample).** When `pdf-parse` throws, the document text
extractor returns the `" "` sentinel — it does *not* degrade to the image
OCR pipeline, although that pipeline would have recognized a nonempty text
on the very same buffer. -/
theorem pdf_parse_error_cex :
    extractTextFromPDFBuffer envPdfThrows 0 = " " ∧
    extractTextFromImageBuffer envPdfThrows 0 = "completely legible scanned report text" ∧
    ("completely legible scanned report text" : String) ≠ " " := by
  refine ⟨by decide, ?_, by decide⟩
  have hshort : ¬(150 < (calculateQualityScore "" 0).total ∧
      3 < (calculateQualityScore "" 0).metrics.medicalTermCount) :=
    fun hc => absurd hc.2 (by decide)
  simp only [extractTextFromImageBuffer, extractTextFromImageBufferE]
  have hdeskew : deskewImage envPdfThrows 0 = 0 := by decide
  rw [hdeskew]
  simp only [envPdfThrows, envBase]
  rw [if_neg hshort]
  simp only [PREPROCESSING_METHODS, runMethod, reduceBest, lt_irrefl, List.map,
    List.take, if_false, ite_false]
  decide

/-- **C7 (amended).** A `pdf-parse` throw is caught and yields the `" "`
sentinel without propagating and without OCR; the degradation to the image
OCR pipeline on the same buffer happens exactly when parsing succeeds but
the trimmed text layer has at most 100 characters. -/
theorem extractTextFromPDFBuffer_behavior (env : Env) (buf : Buffer) :
    (∀ e, env.pdfParse buf = .error e → extractTextFromPDFBuffer env buf = " ") ∧
    (∀ text, env.pdfParse buf = .ok text →
      extractTextFromPDFBuffer env buf =
        if 100 < (jsTrim text).length then text
        else extractTextFromImageBuffer env buf) := by
  constructor
  · intro e he
    simp [extractTextFromPDFBuffer, he]
  · intro text ht
    simp [extractTextFromPDFBuffer, ht]

/-- Witness for the amended C7 on the throwing environment. -/
theorem extractTextFromPDFBuffer_behavior_w :
    extractTextFromPDFBuffer envPdfThrows 0 = " " :=
  (extractTextFromPDFBuffer_behavior envPdfThrows 0).1 "bad xref" rfl

/-- **C8 (counterexample).** A forced-OCR extraction appends its attempt
with method name and success flag but **no** processing time
(`extractionLog.attempts.push({ method: 'ocr', success })` has no
`processingTime` key), refuting "every appended attempt records the
wall-clock processing time". -/
theorem attempt_records_time_cex :
    (extractHealthData envBase ⟨false⟩ 0 "application/pdf"
      { forceMethod := some "ocr" }).extractionLog =
      some { attempts := [{ method := "ocr", success := true, processingTime := none }]
             finalMethod := some "ocr", totalTime := 11, error := none } := by
  decide

/-- **C8 (amended).** Every appended attempt records the method name and
the invoked method's success flag, but processing time is recorded only by
auto-mode attempts, and there only as the method result's
`metadata.processingTime` (present iff the Gemini call succeeded,
resp. the OCR body did not throw); forced-mode attempts record no
processing time at all. -/
theorem attempts_record (env : Env) (cfg : Config) (buf : Buffer) (mime : String)
    (opts : Options) (log : ExtractionLog)
    (hlog : (extractHealthData env cfg buf mime opts).extractionLog = some log) :
    ∀ a ∈ log.attempts,
      ((opts.forceMethod = some "ocr" ∨ opts.forceMethod = some "gemini") →
        a.processingTime = none) ∧
      (a.method = "gemini" → a.success = (extractWithGemini env buf mime).success ∧
        (opts.forceMethod ≠ some "gemini" →
          a.processingTime = (extractWithGemini env buf mime).metadata.map (·.processingTime))) ∧
      (a.method = "ocr" → a.success = (extractWithOCR env buf mime).success ∧
        (opts.forceMethod ≠ some "ocr" →
          a.processingTime = (extractWithOCR env buf mime).metadata.map (·.processingTime))) := by
  rcases extractHealthData_eq env cfg buf mime opts with ⟨r, hE, hr⟩ | ⟨msg, lg, hE, hr⟩ <;>
    rw [hr] at hlog <;>
    rcases extractWithOCR_eq env buf mime with ⟨e, hpe, ho⟩ | ⟨ps, hps, ho⟩ <;>
      rcases extractWithGemini_eq env buf mime with ⟨ge, hge, hg⟩ | ⟨parsed, hgp, hg⟩ <;>
      unfold extractHealthDataE autoOcr at hE <;>
      rw [ho, hg] at hE <;>
      simp only [geminiFailureResult, geminiOkResult, ocrFailureResult, ocrOkResult] at hE <;>
      split at hE <;>
      (try split at hE) <;>
      (try simp at hE) <;>
      (try split at hE) <;>
      (try simp at hE) <;>
      (try split at hE) <;>
      (try simp at hE) <;>
      (try subst hE) <;>
      (try obtain ⟨hEmsg, hElg⟩ := hE) <;>
      (try subst hElg) <;>
      (try simp [failedResult] at hlog) <;>
      (try subst hlog) <;>
      simp_all [failedResult, ho, hg, geminiFailureResult, geminiOkResult,
        ocrFailureResult, ocrOkResult]

/-- Witness for the amended C8: the forced-OCR attempt of the concrete run
above indeed carries no processing time. -/
theorem attempts_record_w :
    ({ method := "ocr", success := true, processingTime := none } :
      ExtractionAttempt).processingTime = none := by
  have h := attempts_record envBase ⟨false⟩ 0 "application/pdf"
    { forceMethod := some "ocr" }
    { attempts := [{ method := "ocr", success := true, processingTime := none }]
      finalMethod := some "ocr", totalTime := 11, error := none } (by decide)
  exact (h { method := "ocr", success := true, processingTime := none }
    (by simp)).1 (Or.inl rfl)

/-- **C1.** The orchestrator is total — by construction
`extractHealthData` returns an `ExtractionResult` for every buffer, mime
type and options value (no exception reaches the caller: the embedding's
only throw sites are the two `throw new Error(...)` statements, both caught
by the single try/catch) — and on every failure path (every run whose try
block throws) the returned result has `method = "failed"`, empty
`healthParameters`, `requiresManualEntry = true`, and the error message
recorded in the extraction log. -/
theorem orchestrator_never_throws (env : Env) (cfg : Config) (buf : Buffer)
    (mime : String) (opts : Options) :
    (∀ r, extractHealthDataE env cfg buf mime opts = .ok r →
      extractHealthData env cfg buf mime opts = r) ∧
    (∀ msg lg, extractHealthDataE env cfg buf mime opts = .error (msg, lg) →
      extractHealthData env cfg buf mime opts =
        failedResult msg { lg with totalTime := env.totalElapsed, error := some msg } ∧
      (extractHealthData env cfg buf mime opts).method = "failed" ∧
      (extractHealthData env cfg buf mime opts).healthParameters = some [] ∧
      (extractHealthData env cfg buf mime opts).requiresManualEntry = some true ∧
      ∃ l, (extractHealthData env cfg buf mime opts).extractionLog = some l ∧
        l.error = some msg) := by
  rcases extractHealthData_eq env cfg buf mime opts with ⟨r, hE, hr⟩ | ⟨msg, lg, hE, hr⟩
  · refine ⟨?_, ?_⟩
    · intro r' h'
      rw [hE] at h'
      cases h'
      exact hr
    · intro msg' lg' h'
      rw [hE] at h'
      cases h'
  · refine ⟨?_, ?_⟩
    · intro r' h'
      rw [hE] at h'
      cases h'
    · intro msg' lg' h'
      rw [hE] at h'
      obtain ⟨h1, h2⟩ : msg = msg' ∧ lg = lg' := by
        have := Except.error.inj h'
        exact ⟨congrArg Prod.fst this, congrArg Prod.snd this⟩
      subst h1
      subst h2
      rw [hr]
      simp [failedResult]

/-- Witness for C1: a forced-Gemini run whose model call throws ends in the
manual-entry failure result. -/
theorem orchestrator_never_throws_w :
    (extractHealthData envBase ⟨false⟩ 0 "image/png"
      { forceMethod := some "gemini" }).method = "failed" ∧
    (extractHealthData envBase ⟨false⟩ 0 "image/png"
      { forceMethod := some "gemini" }).healthParameters = some [] ∧
    (extractHealthData envBase ⟨false⟩ 0 "image/png"
      { forceMethod := some "gemini" }).requiresManualEntry = some true := by
  have h := (orchestrator_never_throws envBase ⟨false⟩ 0 "image/png"
      { forceMethod := some "gemini" }).2
    "Gemini extraction failed (forced mode)"
    { attempts := [{ method := "gemini", success := false, processingTime := none }] }
    (by rfl)
  exact ⟨h.2.1, h.2.2.1, h.2.2.2.1⟩

/-- **C4.** For every input, the final `method` is exactly one of
`gemini`/`ocr`/`failed` (the source's names for the spec's ai/ocr/failed);
`extractionLog.attempts` has at most 2 entries (auto mode), and a
forced-OCR run records exactly the single OCR attempt while a forced-Gemini
run records exactly the single Gemini attempt (in the source each method
invocation is immediately followed by exactly one attempt push, so the
attempt list is in bijection with the invocations: a forced run never
invokes the other method). -/
theorem terminal_method_and_attempts (env : Env) (cfg : Config) (buf : Buffer)
    (mime : String) (opts : Options) :
    ((extractHealthData env cfg buf mime opts).method = "gemini" ∨
      (extractHealthData env cfg buf mime opts).method = "ocr" ∨
      (extractHealthData env cfg buf mime opts).method = "failed") ∧
    ∃ log, (extractHealthData env cfg buf mime opts).extractionLog = some log ∧
      log.attempts.length ≤ 2 ∧
      (opts.forceMethod = some "ocr" → log.attempts.map (fun a => a.method) = ["ocr"]) ∧
      (opts.forceMethod = some "gemini" → log.attempts.map (fun a => a.method) = ["gemini"]) := by
  rcases extractHealthData_eq env cfg buf mime opts with ⟨r, hE, hr⟩ | ⟨msg, lg, hE, hr⟩ <;>
    rcases extractWithOCR_eq env buf mime with ⟨e, hpe, ho⟩ | ⟨ps, hps, ho⟩ <;>
    rcases extractWithGemini_eq env buf mime with ⟨ge, hge, hg⟩ | ⟨parsed, hgp, hg⟩ <;>
    unfold extractHealthDataE autoOcr at hE <;>
    rw [ho, hg] at hE <;>
    simp only [geminiFailureResult, geminiOkResult, ocrFailureResult, ocrOkResult] at hE <;>
    split at hE <;>
    (try split at hE) <;>
    (try simp at hE) <;>
    (try split at hE) <;>
    (try simp at hE) <;>
    (try split at hE) <;>
    (try simp at hE) <;>
    (try subst hE) <;>
    (try obtain ⟨hEmsg, hElg⟩ := hE) <;>
    (try subst hElg) <;>
    (try subst hEmsg) <;>
    rw [hr] <;>
    simp_all [failedResult, geminiFailureResult, geminiOkResult, ocrFailureResult,
      ocrOkResult]

/-- Witness for C4: the forced-OCR run records exactly one OCR attempt. -/
theorem terminal_method_and_attempts_w :
    ∃ log, (extractHealthData envBase ⟨false⟩ 0 "application/pdf"
      { forceMethod := some "ocr" }).extractionLog = some log ∧
      log.attempts.map (fun a => a.method) = ["ocr"] := by
  obtain ⟨hm, log, hlog, hlen, hocr, hgem⟩ :=
    terminal_method_and_attempts envBase ⟨false⟩ 0 "application/pdf"
      { forceMethod := some "ocr" }
  exact ⟨log, hlog, hocr rfl⟩

/-- **C3.** In auto mode with AI preferred and the key configured, the
final result is the AI result (with the attempt log added) exactly when the
Gemini call succeeded with at least one parameter; a zero-parameter AI
success is insufficient and the OCR method runs as fallback (the attempt
trail is then `["gemini", "ocr"]`). -/
theorem auto_ai_preference (env : Env) (cfg : Config) (buf : Buffer) (mime : String)
    (opts : Options) (hforce : opts.forceMethod = none)
    (hpref : opts.preferGemini = true) (hkey : cfg.hasGeminiKey = true) :
    ((extractHealthData env cfg buf mime opts).method = "gemini" ↔
      ((extractWithGemini env buf mime).success = true ∧
        0 < ((extractWithGemini env buf mime).healthParameters.getD []).length)) ∧
    ((extractWithGemini env buf mime).success = true →
      0 < ((extractWithGemini env buf mime).healthParameters.getD []).length →
      extractHealthData env cfg buf mime opts =
        { extractWithGemini env buf mime with
          extractionLog := some
            ⟨[⟨"gemini", (extractWithGemini env buf mime).success,
                (extractWithGemini env buf mime).metadata.map (·.processingTime)⟩],
              some "gemini", env.totalElapsed, none⟩ }) ∧
    ((extractWithGemini env buf mime).success = true →
      ((extractWithGemini env buf mime).healthParameters.getD []).length = 0 →
      ∃ log, (extractHealthData env cfg buf mime opts).extractionLog = some log ∧
        log.attempts.map (fun a => a.method) = ["gemini", "ocr"]) := by
  have h1 : opts.forceMethod ≠ some "ocr" := by simp [hforce]
  have h2 : opts.forceMethod ≠ some "gemini" := by simp [hforce]
  have hE := extractHealthDataE_auto env cfg buf mime opts h1 h2
  rw [hpref, hkey] at hE
  simp only [Bool.and_self, if_true] at hE
  by_cases hs : (extractWithGemini env buf mime).success = true ∧
      0 < ((extractWithGemini env buf mime).healthParameters.getD []).length
  · rw [if_pos hs] at hE
    have hr := extractHealthData_of_ok env cfg buf mime opts _ hE
    refine ⟨?_, ?_, ?_⟩
    · rw [hr]
      simp only [extractWithGemini_method]
      exact iff_of_true trivial hs
    · intro _ _
      exact hr
    · intro hsucc hzero
      exact absurd hs.2 (by omega)
  · rw [if_neg hs] at hE
    rw [autoOcr_eq] at hE
    simp only [] at hE
    refine ⟨?_, ?_, ?_⟩
    · by_cases hos : (extractWithOCR env buf mime).success = true
      · rw [if_pos hos] at hE
        have hr := extractHealthData_of_ok env cfg buf mime opts _ hE
        rw [hr]
        simp only [extractWithOCR_method]
        exact iff_of_false (by decide) hs
      · rw [if_neg hos] at hE
        have hr := extractHealthData_of_error env cfg buf mime opts _ _ hE
        rw [hr]
        refine iff_of_false ?_ hs
        simp [failedResult]
    · intro hsucc hpos
      exact absurd ⟨hsucc, hpos⟩ hs
    · intro hsucc hzero
      by_cases hos : (extractWithOCR env buf mime).success = true
      · rw [if_pos hos] at hE
        have hr := extractHealthData_of_ok env cfg buf mime opts _ hE
        rw [hr]
        exact ⟨_, rfl, rfl⟩
      · rw [if_neg hos] at hE
        have hr := extractHealthData_of_error env cfg buf mime opts _ _ hE
        rw [hr]
        exact ⟨_, rfl, rfl⟩

/-- Environment in which the Gemini call succeeds with one parameter. -/
def envGeminiGood : Env :=
  { envBase with geminiCall := fun _ _ => .ok { parameters := [{}] } }

/-- Witness for C3: with a one-parameter Gemini success in auto mode, the
final method is `gemini`. -/
theorem auto_ai_preference_w :
    (extractHealthData envGeminiGood ⟨true⟩ 0 "image/png" {}).method = "gemini" := by
  have h := auto_ai_preference envGeminiGood ⟨true⟩ 0 "image/png" {} rfl rfl rfl
  exact h.1.mpr ⟨by decide, by decide⟩

/-- **C5.** If the first OCR pass on the unmodified buffer yields fewer
than 50 characters, the 90/180/270-degree rotations are probed and the
candidate with the strictly longest recognized text (baseline: the
unrotated text) wins: the winning non-zero rotation is applied to the
working buffer, while no strict improvement (or a first pass of at least 50
characters) leaves the buffer unchanged. -/
theorem deskew_rotation_selection (env : Env) (buf : Buffer) (t0 : OcrOut)
    (h0 : env.recognize buf .autoOnly = .ok t0) :
    (50 ≤ t0.text.length → deskewImage env buf = buf) ∧
    (∀ b90 b180 b270 r90 r180 r270,
      t0.text.length < 50 →
      env.rotate buf 90 = .ok b90 → env.recognize b90 .autoOnly = .ok r90 →
      env.rotate buf 180 = .ok b180 → env.recognize b180 .autoOnly = .ok r180 →
      env.rotate buf 270 = .ok b270 → env.recognize b270 .autoOnly = .ok r270 →
      ((r90.text.length ≤ t0.text.length ∧ r180.text.length ≤ t0.text.length ∧
          r270.text.length ≤ t0.text.length) →
        deskewImage env buf = buf) ∧
      ((t0.text.length < r90.text.length ∧ r180.text.length < r90.text.length ∧
          r270.text.length < r90.text.length) →
        deskewImage env buf = b90) ∧
      ((t0.text.length < r180.text.length ∧ r90.text.length < r180.text.length ∧
          r270.text.length < r180.text.length) →
        deskewImage env buf = b180) ∧
      ((t0.text.length < r270.text.length ∧ r90.text.length < r270.text.length ∧
          r180.text.length < r270.text.length) →
        deskewImage env buf = b270)) := by
  constructor
  · intro hlong
    simp only [deskewImage, deskewProbe, h0]
    rw [if_neg (by omega)]
  · intro b90 b180 b270 r90 r180 r270 hshort h90 h90r h180 h180r h270 h270r
    simp only [deskewImage, deskewProbe, h0]
    rw [if_pos hshort]
    simp only [probeAll, probeRotation, h90, h90r, h180, h180r, h270, h270r]
    refine ⟨?_, ?_, ?_, ?_⟩ <;> intro hc <;>
      split_ifs <;> simp_all [h90, h180, h270] <;> omega

/-- Environment in which the unrotated pass sees almost nothing and the
180-degree rotation yields the longest text. -/
def envDeskew : Env :=
  { envBase with
    recognize := fun b _ =>
      if b = 180 then .ok ⟨"abcdef", 0⟩
      else if b = 90 then .ok ⟨"ab", 0⟩
      else if b = 270 then .ok ⟨"abc", 0⟩
      else .ok ⟨"", 0⟩ }

/-- Witness for C5: the 180-degree rotation is selected and applied
(rotating buffer `0` by 180 degrees yields buffer `180` in `envDeskew`). -/
theorem deskew_rotation_selection_w :
    deskewImage envDeskew 0 = 180 := by
  have h := (deskew_rotation_selection envDeskew 0 ⟨"", 0⟩ rfl).2
    90 180 270 ⟨"ab", 0⟩ ⟨"abcdef", 0⟩ ⟨"abc", 0⟩ (by decide) rfl rfl rfl rfl rfl rfl
  exact h.2.2.1 (by decide)

/-- **C6.** When the heavy preprocessing ladder runs (the quick-scan
short-circuit failed), the variant result with the strictly highest quality
score is deterministically selected (ties keep the earlier variant), and
its text is returned only when longer than the 10-character floor — the
`" "` sentinel is returned otherwise. -/
theorem heavy_ladder_selection (env : Env) (buf : Buffer) (qb : Buffer) (q : OcrOut)
    (hq1 : env.quickPrep (deskewImage env buf) = .ok qb)
    (hq2 : env.recognize qb .autoOnly = .ok q)
    (hshort : ¬(150 < (calculateQualityScore q.text q.confidence).total ∧
      3 < (calculateQualityScore q.text q.confidence).metrics.medicalTermCount)) :
    (extractTextFromImageBuffer env buf =
      (let r0 := runMethod env "High-Quality Medical" (deskewImage env buf)
       let r1 := runMethod env "Adaptive CLAHE" (deskewImage env buf)
       let best := if r0.score.total < r1.score.total then r1 else r0
       if 10 < best.text.length then best.text else " ")) ∧
    ((runMethod env "Adaptive CLAHE" (deskewImage env buf)).score.total <
        (runMethod env "High-Quality Medical" (deskewImage env buf)).score.total →
      extractTextFromImageBuffer env buf =
        (if 10 < (runMethod env "High-Quality Medical" (deskewImage env buf)).text.length
         then (runMethod env "High-Quality Medical" (deskewImage env buf)).text else " ")) ∧
    ((runMethod env "High-Quality Medical" (deskewImage env buf)).score.total <
        (runMethod env "Adaptive CLAHE" (deskewImage env buf)).score.total →
      extractTextFromImageBuffer env buf =
        (if 10 < (runMethod env "Adaptive CLAHE" (deskewImage env buf)).text.length
         then (runMethod env "Adaptive CLAHE" (deskewImage env buf)).text else " ")) := by
  have hmain : extractTextFromImageBuffer env buf =
      (let r0 := runMethod env "High-Quality Medical" (deskewImage env buf)
       let r1 := runMethod env "Adaptive CLAHE" (deskewImage env buf)
       let best := if r0.score.total < r1.score.total then r1 else r0
       if 10 < best.text.length then best.text else " ") := by
    simp only [extractTextFromImageBuffer, extractTextFromImageBufferE, hq1, hq2]
    rw [if_neg hshort]
    simp [PREPROCESSING_METHODS, reduceBest]
  refine ⟨hmain, ?_, ?_⟩
  · intro hlt
    rw [hmain]
    simp only []
    rw [if_neg (lt_asymm hlt)]
  · intro hlt
    rw [hmain]
    simp only []
    rw [if_pos hlt]
/-- Environment for the C6 witness: the two heavy variants recognize
different texts whose quality scores are 6 and 12 points. -/
def envLadder : Env :=
  { envBase with
    methodProcess := fun name b =>
      if name = "Adaptive CLAHE" then .ok (b + 77) else .ok (b + 66)
    recognize := fun b mode =>
      match mode with
      | .autoOnly => .ok ⟨"", 0⟩
      | .enhanced =>
        if b = 77 then .ok ⟨"bbbbbbbbbbbbbbbbbbbbbbbbbbbbbbbbbbbbbbbb", 0⟩
        else .ok ⟨"aaaaaaaaaaaaaaaaaaaa", 0⟩ }

/-- Witness for C6: the higher-scoring CLAHE variant's 40-character text is
selected. -/
theorem heavy_ladder_selection_w :
    extractTextFromImageBuffer envLadder 0 = "bbbbbbbbbbbbbbbbbbbbbbbbbbbbbbbbbbbbbbbb" := by
  have hd : deskewImage envLadder 0 = 0 := by decide
  have e0 : runMethod envLadder "High-Quality Medical" (deskewImage envLadder 0) =
      { text := "aaaaaaaaaaaaaaaaaaaa"
        score := calculateQualityScore "aaaaaaaaaaaaaaaaaaaa" 0
        methodName := "High-Quality Medical" } := by
    rw [hd]; simp [runMethod, envLadder, envBase]
  have e1 : runMethod envLadder "Adaptive CLAHE" (deskewImage envLadder 0) =
      { text := "bbbbbbbbbbbbbbbbbbbbbbbbbbbbbbbbbbbbbbbb"
        score := calculateQualityScore "bbbbbbbbbbbbbbbbbbbbbbbbbbbbbbbbbbbbbbbb" 0
        methodName := "Adaptive CLAHE" } := by
    rw [hd]; simp [runMethod, envLadder, envBase]
  have hlt : (runMethod envLadder "High-Quality Medical" (deskewImage envLadder 0)).score.total <
      (runMethod envLadder "Adaptive CLAHE" (deskewImage envLadder 0)).score.total := by
    rw [e0, e1]
    norm_num [calculateQualityScore, qualityScoreCore,
      (by decide : medicalTermCount "aaaaaaaaaaaaaaaaaaaa" = 0),
      (by decide : countUnitPatterns "aaaaaaaaaaaaaaaaaaaa" = 0),
      (by decide : countTablePatterns "aaaaaaaaaaaaaaaaaaaa" = 0),
      (by decide : medicalTermCount "bbbbbbbbbbbbbbbbbbbbbbbbbbbbbbbbbbbbbbbb" = 0),
      (by decide : countUnitPatterns "bbbbbbbbbbbbbbbbbbbbbbbbbbbbbbbbbbbbbbbb" = 0),
      (by decide : countTablePatterns "bbbbbbbbbbbbbbbbbbbbbbbbbbbbbbbbbbbbbbbb" = 0),
      (by decide : ("aaaaaaaaaaaaaaaaaaaa" : String).length = 20),
      (by decide : ("bbbbbbbbbbbbbbbbbbbbbbbbbbbbbbbbbbbbbbbb" : String).length = 40)]
  have h := (heavy_ladder_selection envLadder 0 1 ⟨"", 0⟩ (by rfl) (by rfl)
      (fun hc => absurd hc.2 (by decide))).2.2 hlt
  rw [h, e1]
  decide

/-- Dropping a prefix cannot lengthen a list (used to bound the trimmed
length by the raw length). -/
theorem length_dropWhile_le (p : Char → Bool) :
    ∀ l : List Char, (l.dropWhile p).length ≤ l.length
  | [] => Nat.le_refl 0
  | c :: cs => by
    by_cases h : p c
    · rw [List.dropWhile_cons_of_pos h]
      exact Nat.le_trans (length_dropWhile_le p cs) (Nat.le_succ _)
    · rw [List.dropWhile_cons_of_neg h]

/-- **C10.** The OCR method reports success exactly when at least one
health parameter was parsed or the trimmed recognized text is shorter than
50 characters (the scanned-document case).  Consequently, on the auto-mode
OCR leg, recognized text of 50 or more trimmed characters yielding zero
parameters finalizes the whole extraction with `method = "failed"`, while
near-empty recognized text (under 50 characters) finalizes with
`method = "ocr"` and `requiresManualEntry = true`. -/
theorem ocr_success_criterion (env : Env) (buf : Buffer) (mime : String) :
    (∀ ps, parsedParams env (ocrExtractedText (ocrRawText env buf mime)) = .ok ps →
      ((extractWithOCR env buf mime).success = true ↔
        (0 < ps.length ∨ (jsTrim (ocrRawText env buf mime)).length < 50))) ∧
    (∀ cfg opts ps, opts.forceMethod = none → cfg.hasGeminiKey = false →
      parsedParams env (ocrExtractedText (ocrRawText env buf mime)) = .ok ps →
      50 ≤ (jsTrim (ocrRawText env buf mime)).length → ps.length = 0 →
      (extractHealthData env cfg buf mime opts).method = "failed") ∧
    (∀ cfg opts, opts.forceMethod = none → cfg.hasGeminiKey = false →
      (ocrRawText env buf mime).length < 50 →
      (extractHealthData env cfg buf mime opts).method = "ocr" ∧
      (extractHealthData env cfg buf mime opts).requiresManualEntry = some true) := by
  refine ⟨?_, ?_, ?_⟩
  · intro ps hps
    rcases extractWithOCR_eq env buf mime with ⟨e, hpe, ho⟩ | ⟨ps', hps', ho⟩
    · rw [hps] at hpe
      cases hpe
    · rw [hps] at hps'
      cases hps'
      rw [ho]
      simp only [ocrOkResult, ocrIsScanned, Bool.or_eq_true, decide_eq_true_eq,
        Bool.and_eq_true]
      omega
  · intro cfg opts ps hforce hkey hps hlong hzero
    rcases extractWithOCR_eq env buf mime with ⟨e, hpe, ho⟩ | ⟨ps', hps', ho⟩
    · rw [hps] at hpe
      cases hpe
    · rw [hps] at hps'
      cases hps'
      have hsucc : (extractWithOCR env buf mime).success = false := by
        rw [ho]
        simp only [ocrOkResult, ocrIsScanned, Bool.or_eq_false_iff, Bool.and_eq_false_iff,
          decide_eq_false_iff_not]
        refine ⟨by omega, Or.inr (by omega), by omega⟩
      have h1 : opts.forceMethod ≠ some "ocr" := by simp [hforce]
      have h2 : opts.forceMethod ≠ some "gemini" := by simp [hforce]
      have hE := extractHealthDataE_auto env cfg buf mime opts h1 h2
      rw [hkey, Bool.and_false, if_neg (by simp)] at hE
      rw [autoOcr_eq] at hE
      simp only [hsucc, if_false, Bool.false_eq_true] at hE
      have hr := extractHealthData_of_error env cfg buf mime opts _ _ hE
      rw [hr]
      rfl
  · intro cfg opts hforce hkey hraw
    have htrim : (jsTrim (ocrRawText env buf mime)).length ≤ (ocrRawText env buf mime).length := by
      unfold jsTrim trimChars
      simp only [String.length]
      calc (((((ocrRawText env buf mime).data.dropWhile Char.isWhitespace).reverse.dropWhile
            Char.isWhitespace).reverse)).length
          = ((((ocrRawText env buf mime).data.dropWhile Char.isWhitespace).reverse.dropWhile
            Char.isWhitespace)).length := List.length_reverse _
        _ ≤ (((ocrRawText env buf mime).data.dropWhile Char.isWhitespace).reverse).length :=
            length_dropWhile_le _ _
        _ = (((ocrRawText env buf mime).data.dropWhile Char.isWhitespace)).length :=
            List.length_reverse _
        _ ≤ ((ocrRawText env buf mime).data).length := length_dropWhile_le _ _
    have hlen : ¬ 50 < (ocrExtractedText (ocrRawText env buf mime)).length := by
      unfold ocrExtractedText
      split
      · decide
      · omega
    have hps : parsedParams env (ocrExtractedText (ocrRawText env buf mime)) = .ok [] := by
      unfold parsedParams
      rw [if_neg hlen]
    rcases extractWithOCR_eq env buf mime with ⟨e, hpe, ho⟩ | ⟨ps', hps', ho⟩
    · rw [hps] at hpe
      cases hpe
    · rw [hps] at hps'
      cases hps'
      have hsucc : (extractWithOCR env buf mime).success = true := by
        rw [ho]
        simp only [ocrOkResult, ocrIsScanned, Bool.or_eq_true, decide_eq_true_eq,
          Bool.and_eq_true]
        omega
      have h1 : opts.forceMethod ≠ some "ocr" := by simp [hforce]
      have h2 : opts.forceMethod ≠ some "gemini" := by simp [hforce]
      have hE := extractHealthDataE_auto env cfg buf mime opts h1 h2
      rw [hkey, Bool.and_false, if_neg (by simp)] at hE
      rw [autoOcr_eq] at hE
      simp only [hsucc, if_true] at hE
      have hr := extractHealthData_of_ok env cfg buf mime opts _ hE
      rw [hr]
      refine ⟨extractWithOCR_method env buf mime, ?_⟩
      show (extractWithOCR env buf mime).requiresManualEntry = some true
      rw [ho]
      rfl

/-- Environment whose PDF has a 120-character embedded text layer in which
the parameter parser finds nothing. -/
def envPdfText : Env :=
  { envBase with pdfParse := fun _ => .ok "xxxxxxxxxxxxxxxxxxxxxxxxxxxxxxxxxxxxxxxxxxxxxxxxxxxxxxxxxxxxxxxxxxxxxxxxxxxxxxxxxxxxxxxxxxxxxxxxxxxxxxxxxxxxxxxxxxxxxxxx" }

set_option maxRecDepth 40000 in
/-- Witness for C10: 120 recognized characters with zero parsed parameters
finalize the auto-mode extraction as `failed`. -/
theorem ocr_success_criterion_w :
    (extractHealthData envPdfText ⟨false⟩ 0 "application/pdf" {}).method = "failed" :=
  (ocr_success_criterion envPdfText 0 "application/pdf").2.1 ⟨false⟩ {} []
    rfl rfl (by rfl) (by decide) rfl

end HealthReport
